import Mathlib

/-!
Verification development for the ogc-mcp repository.

The repository contains a pygeoapi process plugin
(src/processes/buffer_process.py, class GeometryBufferProcessor), an HTTP
validation suite (src/validate_tests.py) and a demo polling client
(src/demo_client.py).  This file gives a shallow embedding of the parts of
that code the claims are about:

  * Python JSON-like values (`PyVal`), dictionaries and the semantics of
    `dict.get`, `float(...)` and `int(...)` coercion;
  * the shapely layer (`shape`, `mapping`, `buffer`, `area`, `geom_type`)
    as an executable model of the external collaborator the spec scopes
    out ("the specific geometric algorithms a process performs internally
    ... are opaque process implementations");
  * `GeometryBufferProcessor.execute`, translated line by line, including
    the trace of dictionary operations it performs on the caller mapping
    and the log messages it emits;
  * the async polling helper `poll_async_job` of validate_tests.py and the
    unbounded polling loop of demo_client.py.

Python floats are modelled as rationals; the claims under study do not
depend on floating-point rounding.
-/

/-- Python JSON-like values as they appear in process inputs and outputs:
None, booleans, ints, floats (modelled as rationals), strings, lists and
string-keyed dicts. -/
inductive PyVal where
  | none
  | bool (b : Bool)
  | int (n : Int)
  | float (q : ℚ)
  | str (s : String)
  | list (xs : List PyVal)
  | dict (entries : List (String × PyVal))

/-- A Python dict with string keys, as a association list (first binding of a
key wins, matching insertion-ordered dicts with distinct keys). -/
def PyDict := List (String × PyVal)

/-- Look a key up in a dict: the Option-valued core of Python `dict.get`. -/
def dictLookup : PyDict → String → Option PyVal
  | [], _ => Option.none
  | (k, v) :: rest, key => if k = key then Option.some v else dictLookup rest key

/-- Python `d.get(key)`: the stored value, or None when the key is absent.
A stored null and an absent key both yield `PyVal.none`, exactly as in
Python where `data.get('geometry')` is `None` in both cases. -/
def dictGet (d : PyDict) (key : String) : PyVal :=
  (dictLookup d key).getD PyVal.none

/-- Python `d.get(key, default)`: the stored value, or `default` when the
key is absent (a stored null is returned as None, not replaced). -/
def dictGetD (d : PyDict) (key : String) (default : PyVal) : PyVal :=
  (dictLookup d key).getD default

/-- Test for the Python None value. -/
def isNone : PyVal → Bool
  | PyVal.none => true
  | _ => false

/-- Python exceptions relevant to the buffer process: the pygeoapi
ProcessorExecuteError (which carries a message only) and the built-in
TypeError and ValueError that `float(...)` and `int(...)` raise. -/
inductive PyError where
  | processorExecuteError (msg : String)
  | typeError (msg : String)
  | valueError (msg : String)

/-- Whether an Except computation succeeded. -/
def exceptIsOk : Except ε α → Bool
  | Except.ok _ => true
  | Except.error _ => false

/-- Fold a digit string into a number; fails on any non-digit. -/
def digitsToNat : List Char → Nat → Option Nat
  | [], acc => Option.some acc
  | c :: cs, acc =>
    if c.isDigit then digitsToNat cs (acc * 10 + (c.toNat - 48)) else Option.none

/-- Parse a nonempty run of decimal digits. -/
def parseDigits (l : List Char) : Option Nat :=
  match l with
  | [] => Option.none
  | _ => digitsToNat l 0

/-- Parse an optionally signed decimal integer literal, the strings Python
`int(...)` accepts (base 10, no underscores modelled). -/
def parseIntLit (l : List Char) : Option Int :=
  match l with
  | '-' :: rest => (parseDigits rest).map (fun n => -(n : Int))
  | '+' :: rest => (parseDigits rest).map (fun n => (n : Int))
  | _ => (parseDigits l).map (fun n => (n : Int))

/-- Split a character list at the first dot. -/
def splitAtDot : List Char → (List Char × Option (List Char))
  | [] => ([], Option.none)
  | '.' :: rest => ([], Option.some rest)
  | c :: rest =>
    let r := splitAtDot rest
    (c :: r.1, r.2)

/-- Parse an unsigned decimal float literal: digits, optionally with a dot
and a fractional part (`12`, `12.`, `12.5`, `.5`). -/
def parseUnsignedFloat (l : List Char) : Option ℚ :=
  match splitAtDot l with
  | (intPart, Option.none) => (parseDigits intPart).map (fun n => (n : ℚ))
  | ([], Option.some fracPart) =>
    (parseDigits fracPart).map (fun n => (n : ℚ) / (10 : ℚ) ^ fracPart.length)
  | (intPart, Option.some []) => (parseDigits intPart).map (fun n => (n : ℚ))
  | (intPart, Option.some fracPart) =>
    match parseDigits intPart, parseDigits fracPart with
    | Option.some i, Option.some f =>
      Option.some ((i : ℚ) + (f : ℚ) / (10 : ℚ) ^ fracPart.length)
    | _, _ => Option.none

/-- Parse an optionally signed decimal float literal, the plain-decimal core
of the strings Python `float(...)` accepts (exponents, inf and nan are not
modelled; no claim depends on them). -/
def parseFloatLit (l : List Char) : Option ℚ :=
  match l with
  | '-' :: rest => (parseUnsignedFloat rest).map (fun q => -q)
  | '+' :: rest => parseUnsignedFloat rest
  | _ => parseUnsignedFloat l

/-- Truncate a rational toward zero, as Python `int(float)` does. -/
def ratTrunc (q : ℚ) : Int :=
  Int.tdiv q.num (q.den : Int)

/-- Python `float(v)`: ints, floats and bools convert; strings are parsed
and raise ValueError when unparsable (Python also strips surrounding
whitespace first, which no claim exercises and which is not modelled);
None, lists and dicts raise TypeError. -/
def pyFloat : PyVal → Except PyError ℚ
  | PyVal.int n => Except.ok (n : ℚ)
  | PyVal.float q => Except.ok q
  | PyVal.bool b => Except.ok (if b then 1 else 0)
  | PyVal.str s =>
    match parseFloatLit s.toList with
    | Option.some q => Except.ok q
    | Option.none =>
      Except.error (PyError.valueError ("could not convert string to float: " ++ s))
  | PyVal.none =>
    Except.error (PyError.typeError "float() argument must be a string or a real number, not NoneType")
  | PyVal.list _ =>
    Except.error (PyError.typeError "float() argument must be a string or a real number, not list")
  | PyVal.dict _ =>
    Except.error (PyError.typeError "float() argument must be a string or a real number, not dict")

/-- Python `int(v)`: ints and bools convert; floats truncate toward zero;
strings are parsed as integer literals and raise ValueError when unparsable
(whitespace stripping is not modelled, as for `pyFloat`); None, lists and
dicts raise TypeError. -/
def pyInt : PyVal → Except PyError Int
  | PyVal.int n => Except.ok n
  | PyVal.bool b => Except.ok (if b then 1 else 0)
  | PyVal.float q => Except.ok (ratTrunc q)
  | PyVal.str s =>
    match parseIntLit s.toList with
    | Option.some n => Except.ok n
    | Option.none =>
      Except.error (PyError.valueError ("invalid literal for int() with base 10: " ++ s))
  | PyVal.none =>
    Except.error (PyError.typeError "int() argument must be a string, a bytes-like object or a real number, not NoneType")
  | PyVal.list _ =>
    Except.error (PyError.typeError "int() argument must be a string, a bytes-like object or a real number, not list")
  | PyVal.dict _ =>
    Except.error (PyError.typeError "int() argument must be a string, a bytes-like object or a real number, not dict")

/-- Shapely geometry objects for the types the process header documents
(Point, LineString, Polygon, and the Multi variants). -/
inductive Geom where
  | point (x y : ℚ)
  | lineString (coords : List (ℚ × ℚ))
  | polygon (rings : List (List (ℚ × ℚ)))
  | multiPoint (pts : List (ℚ × ℚ))
  | multiLineString (lines : List (List (ℚ × ℚ)))
  | multiPolygon (polys : List (List (List (ℚ × ℚ))))

/-- Shapely `geom.geom_type`. -/
def geomType : Geom → String
  | Geom.point _ _ => "Point"
  | Geom.lineString _ => "LineString"
  | Geom.polygon _ => "Polygon"
  | Geom.multiPoint _ => "MultiPoint"
  | Geom.multiLineString _ => "MultiLineString"
  | Geom.multiPolygon _ => "MultiPolygon"

/-- Read a JSON number as a rational coordinate. -/
def parseNumQ : PyVal → Option ℚ
  | PyVal.int n => Option.some (n : ℚ)
  | PyVal.float q => Option.some q
  | _ => Option.none

/-- Read a GeoJSON position `[x, y, ...]` (extra dimensions ignored). -/
def parseCoord : PyVal → Option (ℚ × ℚ)
  | PyVal.list (x :: y :: _) =>
    match parseNumQ x, parseNumQ y with
    | Option.some a, Option.some b => Option.some (a, b)
    | _, _ => Option.none
  | _ => Option.none

/-- Read a GeoJSON array of positions. -/
def parseCoordList : PyVal → Option (List (ℚ × ℚ))
  | PyVal.list xs => xs.mapM parseCoord
  | _ => Option.none

/-- Read a GeoJSON array of rings (array of arrays of positions). -/
def parseRingList : PyVal → Option (List (List (ℚ × ℚ)))
  | PyVal.list xs => xs.mapM parseCoordList
  | _ => Option.none

/-- Read a GeoJSON array of ring lists (MultiPolygon coordinates). -/
def parsePolyList : PyVal → Option (List (List (List (ℚ × ℚ))))
  | PyVal.list xs => xs.mapM parseRingList
  | _ => Option.none

/-- Shapely `shape(obj)`, modelled as an executable GeoJSON parser for the
supported types: on success a `Geom`, on failure the error message of the
exception it raises (shapely is an external collaborator; the spec treats
the geometric layer as opaque, so only its interface is modelled). -/
def shapeParse (v : PyVal) : Except String Geom :=
  match v with
  | PyVal.dict entries =>
    match dictLookup entries "type" with
    | Option.none => Except.error "type"
    | Option.some t =>
      match t with
      | PyVal.str "Point" =>
        match parseCoord (dictGet entries "coordinates") with
        | Option.some (x, y) => Except.ok (Geom.point x y)
        | Option.none => Except.error "Point coordinates must be a pair of numbers"
      | PyVal.str "LineString" =>
        match parseCoordList (dictGet entries "coordinates") with
        | Option.some cs => Except.ok (Geom.lineString cs)
        | Option.none => Except.error "LineString coordinates must be an array of positions"
      | PyVal.str "Polygon" =>
        match parseRingList (dictGet entries "coordinates") with
        | Option.some rs => Except.ok (Geom.polygon rs)
        | Option.none => Except.error "Polygon coordinates must be an array of rings"
      | PyVal.str "MultiPoint" =>
        match parseCoordList (dictGet entries "coordinates") with
        | Option.some cs => Except.ok (Geom.multiPoint cs)
        | Option.none => Except.error "MultiPoint coordinates must be an array of positions"
      | PyVal.str "MultiLineString" =>
        match parseRingList (dictGet entries "coordinates") with
        | Option.some rs => Except.ok (Geom.multiLineString rs)
        | Option.none => Except.error "MultiLineString coordinates must be an array of arrays"
      | PyVal.str "MultiPolygon" =>
        match parsePolyList (dictGet entries "coordinates") with
        | Option.some ps => Except.ok (Geom.multiPolygon ps)
        | Option.none => Except.error "MultiPolygon coordinates must be an array of polygons"
      | PyVal.str other => Except.error ("Unknown geometry type: " ++ other)
      | _ => Except.error "Unknown geometry type"
  | _ => Except.error "Object is not a geometry"

/-- All coordinates mentioned by a geometry, used for its bounding box. -/
def allCoords : Geom → List (ℚ × ℚ)
  | Geom.point x y => [(x, y)]
  | Geom.lineString cs => cs
  | Geom.polygon rs => rs.flatten
  | Geom.multiPoint cs => cs
  | Geom.multiLineString rs => rs.flatten
  | Geom.multiPolygon ps => (ps.map List.flatten).flatten

/-- Bounding box (minx, miny, maxx, maxy) of a nonempty coordinate list. -/
def coordsBBox : List (ℚ × ℚ) → Option (ℚ × ℚ × ℚ × ℚ)
  | [] => Option.none
  | (x, y) :: rest =>
    (coordsBBox rest).getD (x, y, x, y) |>
      (fun r => Option.some (min x r.1, min y r.2.1, max x r.2.2.1, max y r.2.2.2))

/-- Shapely `geom.buffer(distance, resolution=resolution)`, modelled as the
bounding box of the geometry dilated by the distance, returned as a Polygon
with one counterclockwise ring (empty input yields an empty Polygon).  This
is an executable stand-in for the opaque geometric algorithm: like shapely
it is deterministic, always yields a Polygon, and yields positive area for
a positive distance on a nonempty geometry.  The resolution argument, which
in shapely only controls how finely arcs are approximated, does not affect
the model shape. -/
def bufferGeom (g : Geom) (distance : ℚ) (resolution : Int) : Geom :=
  match coordsBBox (allCoords g) with
  | Option.none => Geom.polygon []
  | Option.some (minx, miny, maxx, maxy) =>
    let _ := resolution
    Geom.polygon [[(minx - distance, miny - distance),
                   (maxx + distance, miny - distance),
                   (maxx + distance, maxy + distance),
                   (minx - distance, maxy + distance)]]

/-- Twice the signed area of a ring, by the shoelace formula over the
cyclically closed vertex list. -/
def shoelace (ring : List (ℚ × ℚ)) : ℚ :=
  (ring.zip (ring.rotate 1)).foldl
    (fun acc pq => acc + (pq.1.1 * pq.2.2 - pq.2.1 * pq.1.2)) 0

/-- Unsigned area of one ring. -/
def ringArea (ring : List (ℚ × ℚ)) : ℚ :=
  |shoelace ring| / 2

/-- Area of one polygon given as its ring list: the outer ring area minus
the holes (zero when there is no ring). -/
def ringListArea : List (List (ℚ × ℚ)) → ℚ
  | [] => 0
  | outer :: holes => ringArea outer - (holes.map ringArea).sum

/-- Shapely `geom.area`: zero for points and lines; for polygons the outer
ring area minus the holes; for multipolygons the sum over parts. -/
def geomArea : Geom → ℚ
  | Geom.polygon rings => ringListArea rings
  | Geom.multiPolygon ps => (ps.map ringListArea).sum
  | _ => 0

/-- Shapely `mapping(geom)`: the GeoJSON dict of a geometry. -/
def shapelyMapping : Geom → PyVal
  | Geom.point x y =>
    PyVal.dict [("type", PyVal.str "Point"),
                ("coordinates", PyVal.list [PyVal.float x, PyVal.float y])]
  | Geom.lineString cs =>
    PyVal.dict [("type", PyVal.str "LineString"),
                ("coordinates", PyVal.list (cs.map
                  (fun c => PyVal.list [PyVal.float c.1, PyVal.float c.2])))]
  | Geom.polygon rs =>
    PyVal.dict [("type", PyVal.str "Polygon"),
                ("coordinates", PyVal.list (rs.map (fun ring => PyVal.list (ring.map
                  (fun c => PyVal.list [PyVal.float c.1, PyVal.float c.2])))))]
  | Geom.multiPoint cs =>
    PyVal.dict [("type", PyVal.str "MultiPoint"),
                ("coordinates", PyVal.list (cs.map
                  (fun c => PyVal.list [PyVal.float c.1, PyVal.float c.2])))]
  | Geom.multiLineString rs =>
    PyVal.dict [("type", PyVal.str "MultiLineString"),
                ("coordinates", PyVal.list (rs.map (fun ring => PyVal.list (ring.map
                  (fun c => PyVal.list [PyVal.float c.1, PyVal.float c.2])))))]
  | Geom.multiPolygon ps =>
    PyVal.dict [("type", PyVal.str "MultiPolygon"),
                ("coordinates", PyVal.list (ps.map (fun rings => PyVal.list (rings.map
                  (fun ring => PyVal.list (ring.map
                    (fun c => PyVal.list [PyVal.float c.1, PyVal.float c.2])))))))]

/-- An operation performed on the caller input mapping.  The buffer process
only ever reads keys; a hypothetical mutation would appear as a write or
delete in the trace. -/
inductive DictOp where
  | read (key : String)
  | write (key : String) (v : PyVal)
  | delete (key : String)

/-- Whether a dict operation leaves the dict unchanged. -/
def DictOp.isRead : DictOp → Bool
  | DictOp.read _ => true
  | _ => false

/-- Replay a trace of dict operations against a dict, yielding the dict the
caller holds afterwards (reads change nothing; writes prepend the binding;
deletes drop the key). -/
def applyDictOps : List DictOp → PyDict → PyDict
  | [], d => d
  | DictOp.read _ :: rest, d => applyDictOps rest d
  | DictOp.write k v :: rest, d => applyDictOps rest ((k, v) :: d)
  | DictOp.delete k :: rest, d =>
    applyDictOps rest (d.filter (fun kv => decide (kv.1 ≠ k)))

/-- Observable effects of one call to `execute`: the operations performed on
the caller mapping `data`, and the messages sent to LOGGER. -/
structure ExecEffects where
  dictOps : List DictOp
  logMsgs : List String

/-- Result dict built at lines 135-145 of buffer_process.py: a GeoJSON
Feature wrapping the buffered geometry, with the echoed parameters and the
computed area in `properties`. -/
def resultDict (geom : Geom) (distance : ℚ) (resolution : Int) : PyVal :=
  let buffered := bufferGeom geom distance resolution
  PyVal.dict
    [("type", PyVal.str "Feature"),
     ("geometry", shapelyMapping buffered),
     ("properties", PyVal.dict
       [("input_geometry_type", PyVal.str (geomType geom)),
        ("buffer_distance", PyVal.float distance),
        ("buffer_resolution", PyVal.int resolution),
        ("result_geometry_type", PyVal.str (geomType buffered)),
        ("result_area", PyVal.float (geomArea buffered))])]

/-- The LOGGER.info line emitted just before the buffer is computed
(line 126; the numeric rendering of the arguments is abbreviated, only the
presence and position of the message matter to the claims). -/
def bufferLogLine (geom : Geom) : String :=
  "Buffering " ++ geomType geom ++ " by distance, resolution"

/-- GeometryBufferProcessor.execute (buffer_process.py lines 91-147),
translated line by line, with its effects made explicit.  The `outputs`
parameter mirrors the unused `outputs=None` parameter of the Python
method.  Control flow:

  * `data.get('geometry')` absent or null: ProcessorExecuteError naming
    geometry (lines 98-100);
  * `data.get('distance')` absent or null: ProcessorExecuteError naming
    distance (lines 102-104);
  * `float(distance)` failure (TypeError or ValueError both caught):
    ProcessorExecuteError "distance must be a number" (lines 106-109);
  * `int(data.get('resolution', 16))` failure: the TypeError or ValueError
    escapes uncaught, there is no try/except around line 111;
  * `shape(geometry_input)` failure: ProcessorExecuteError wrapping the
    parser message verbatim (lines 120-124);
  * otherwise the LOGGER.info line, the buffer, and the Feature result
    (lines 126-147).

The shapely import guard at lines 114-118 is not modelled: in the deployed
environment the import either always succeeds or always fails, and every
claim concerns the former. -/
def executeT (data : PyDict) (outputs : PyVal) :
    ExecEffects × Except PyError (String × PyVal) :=
  let _ := outputs
  let mimetype := "application/json"
  let geometry_input := dictGet data "geometry"
  if isNone geometry_input then
    (⟨[DictOp.read "geometry"], []⟩,
     Except.error (PyError.processorExecuteError "Missing required input: geometry"))
  else
    let distanceRaw := dictGet data "distance"
    if isNone distanceRaw then
      (⟨[DictOp.read "geometry", DictOp.read "distance"], []⟩,
       Except.error (PyError.processorExecuteError "Missing required input: distance"))
    else
      match pyFloat distanceRaw with
      | Except.error _ =>
        (⟨[DictOp.read "geometry", DictOp.read "distance"], []⟩,
         Except.error (PyError.processorExecuteError "distance must be a number"))
      | Except.ok distance =>
        match pyInt (dictGetD data "resolution" (PyVal.int 16)) with
        | Except.error e =>
          (⟨[DictOp.read "geometry", DictOp.read "distance", DictOp.read "resolution"], []⟩,
           Except.error e)
        | Except.ok resolution =>
          match shapeParse geometry_input with
          | Except.error err =>
            (⟨[DictOp.read "geometry", DictOp.read "distance", DictOp.read "resolution"], []⟩,
             Except.error (PyError.processorExecuteError ("Invalid GeoJSON geometry: " ++ err)))
          | Except.ok geom =>
            (⟨[DictOp.read "geometry", DictOp.read "distance", DictOp.read "resolution"],
              [bufferLogLine geom]⟩,
             Except.ok (mimetype, resultDict geom distance resolution))

/-- The returned value (or raised error) of GeometryBufferProcessor.execute,
called as the pygeoapi manager does, with `outputs` left at its None
default. -/
def execute (data : PyDict) : Except PyError (String × PyVal) :=
  (executeT data PyVal.none).2

/-- Python `body.get(key)` on a JSON value that may or may not be a dict,
as the validation suite uses it (`body.get("geometry", {}).get("type")`):
None when the value is not a dict or lacks the key. -/
def pvGet (v : PyVal) (key : String) : PyVal :=
  match v with
  | PyVal.dict entries => dictGet entries key
  | _ => PyVal.none

/-- The body of an HTTP response as poll_async_job sees it: either text
that `r.json()` fails to parse, or a parsed JSON value — which need not be
an object: a JSON string, array, number or null parses fine and only fails
later, when `.get` is called on it. -/
inductive PollBody where
  | invalidJson
  | json (v : PyVal)

/-- One server response observed by an iteration of poll_async_job: either
a transport error (the `httpx.RequestError` branch) or an HTTP response
with a status code and a body. -/
inductive PollResp where
  | networkError
  | http (code : Nat) (body : PollBody)

/-- The exceptions poll_async_job can let escape: `r.json()` raising
json.JSONDecodeError on an unparsable 200 body, and `data.get` raising
AttributeError when the parsed 200 body is not a dict.  The except clause
at line 164 catches only httpx.RequestError, so neither is caught. -/
inductive PollError where
  | jsonDecodeError
  | attributeError

/-- The `data.get("status", "")` of a polled job body, compared against the
literals of validate_tests.py; a non-string status never equals them. -/
def pollStatusIsTerminal (body : PyDict) : Bool :=
  match dictGetD body "status" (PyVal.str "") with
  | PyVal.str s => s = "successful" || s = "failed"
  | _ => false

/-- poll_async_job of validate_tests.py (lines 148-167).  Time is abstracted
by the list of responses the loop observes before the deadline: the loop
runs on a fixed interval until `time.monotonic()` reaches the deadline, so
it performs finitely many iterations, one list element each.  A 200
response whose body parses to a dict whose status is "successful" or
"failed" is returned as the job document; a non-200 response, a transport
error, or a dict body with another or missing status is skipped; an
exhausted list is the deadline expiring, returning None.  But a 200
response whose body `r.json()` cannot parse raises json.JSONDecodeError,
and one whose body parses to a non-dict raises AttributeError at
`data.get` — only httpx.RequestError is caught, so both escape the
function, modelled as the error side of the result. -/
def poll_async_job : List PollResp → Except PollError (Option PyDict)
  | [] => Except.ok Option.none
  | resp :: rest =>
    match resp with
    | PollResp.networkError => poll_async_job rest
    | PollResp.http code body =>
      if code = 200 then
        match body with
        | PollBody.invalidJson => Except.error PollError.jsonDecodeError
        | PollBody.json v =>
          match v with
          | PyVal.dict entries =>
            if pollStatusIsTerminal entries then Except.ok (Option.some entries)
            else poll_async_job rest
          | _ => Except.error PollError.attributeError
      else poll_async_job rest

/-- Whether a response cannot trip the uncaught exceptions of
poll_async_job: every 200 response must carry a body that parses to a JSON
object; non-200 responses and transport errors never reach `r.json()`. -/
def respBodyOk : PollResp → Bool
  | PollResp.networkError => true
  | PollResp.http code body =>
    if code = 200 then
      match body with
      | PollBody.json (PyVal.dict _) => true
      | _ => false
    else true

/-- Whether a status string breaks the demo client polling loop:
`status == "successful"` or `status in ["failed", "dismissed"]`
(demo_client.py lines 46 and 57). -/
def demoTerminal (s : String) : Bool :=
  s = "successful" || s = "failed" || s = "dismissed"

/-- The module-level polling loop of demo_client.py (lines 38-59):
`while True` with a sleep, a status fetch, and a break only on
"successful", "failed" or "dismissed".  The loop has no deadline, so it is
embedded with explicit fuel over the infinite stream of statuses the
successive polls would observe (a missing or non-string status field reads
as a non-terminal string and keeps looping): `demoPoll fuel statuses` is
None exactly when the first `fuel` polls all see non-terminal statuses,
i.e. for every fuel the loop is still running. -/
def demoPoll : Nat → (Nat → String) → Option String
  | 0, _ => Option.none
  | Nat.succ n, statuses =>
    if demoTerminal (statuses 0) then Option.some (statuses 0)
    else demoPoll n (fun i => statuses (i + 1))

/-- The example Point geometry of the process metadata and of
test_sync_geometry_buffer_point: a Point at the origin. -/
def pointGeoJSON : PyVal :=
  PyVal.dict [("type", PyVal.str "Point"),
              ("coordinates", PyVal.list [PyVal.float 0, PyVal.float 0])]

/-- The validated inputs of test_sync_geometry_buffer_point: the origin
Point, distance 1.0, resolution 16. -/
def c2Input : PyDict :=
  [("geometry", pointGeoJSON),
   ("distance", PyVal.float 1),
   ("resolution", PyVal.int 16)]

/-- An input mapping with a valid geometry and distance but a resolution
string that `int(...)` cannot parse. -/
def badResolutionInput : PyDict :=
  [("geometry", pointGeoJSON),
   ("distance", PyVal.float 1),
   ("resolution", PyVal.str "abc")]

/-- Inputs with a valid geometry and distance and no resolution key. -/
def noResolutionInput : PyDict :=
  [("geometry", pointGeoJSON),
   ("distance", PyVal.float 1)]

/-- A well-formed polling run as the async test observes one: a transport
hiccup, a not-ready non-200 response, a running status, then success. -/
def c4Responses : List PollResp :=
  [PollResp.networkError,
   PollResp.http 404 (PollBody.json (PyVal.dict [])),
   PollResp.http 200 (PollBody.json (PyVal.dict [("status", PyVal.str "running")])),
   PollResp.http 200 (PollBody.json (PyVal.dict
     [("status", PyVal.str "successful"), ("jobID", PyVal.str "job-1")]))]

/-- C2: executing the geometry-buffer process on geometry = Point (0,0),
distance = 1.0, resolution = 16 returns mimetype application/json and a
Feature whose geometry type is Polygon and whose properties carry a
result_area strictly greater than zero. -/
theorem c2_round_trip_point :
    ∃ r a, execute c2Input = Except.ok ("application/json", r) ∧
      pvGet r "type" = PyVal.str "Feature" ∧
      pvGet (pvGet r "geometry") "type" = PyVal.str "Polygon" ∧
      pvGet (pvGet r "properties") "result_area" = PyVal.float a ∧
      0 < a := by
  refine ⟨resultDict (Geom.point 0 0) 1 16,
          geomArea (bufferGeom (Geom.point 0 0) 1 16),
          rfl, rfl, rfl, rfl, ?_⟩
  norm_num [bufferGeom, allCoords, coordsBBox, geomArea, ringListArea, ringArea,
            shoelace, List.rotate]

/-- C3: whenever a required input (geometry or distance) is absent or null
— `isNone (dictGet data k)` is true exactly when key k is absent or bound
to null, matching Python `data.get(k) is None` — execute fails with a
ProcessorExecuteError naming the missing field, and fails before computing
any buffer: the log line that immediately precedes the buffer computation
is never emitted. -/
theorem c3_missing_required_input (data : PyDict) :
    (isNone (dictGet data "geometry") = true →
      execute data =
        Except.error (PyError.processorExecuteError "Missing required input: geometry") ∧
      (executeT data PyVal.none).1.logMsgs = []) ∧
    (isNone (dictGet data "geometry") = false →
      isNone (dictGet data "distance") = true →
      execute data =
        Except.error (PyError.processorExecuteError "Missing required input: distance") ∧
      (executeT data PyVal.none).1.logMsgs = []) := by
  constructor
  · intro hg
    exact ⟨by simp [execute, executeT, hg], by simp [executeT, hg]⟩
  · intro hg hd
    exact ⟨by simp [execute, executeT, hg, hd], by simp [executeT, hg, hd]⟩

/-- C3 witness: omitting geometry names geometry; supplying geometry but a
null distance names distance. -/
theorem c3_missing_required_input_witness :
    execute [("distance", PyVal.float 1)] =
      Except.error (PyError.processorExecuteError "Missing required input: geometry") ∧
    execute [("geometry", pointGeoJSON), ("distance", PyVal.none)] =
      Except.error (PyError.processorExecuteError "Missing required input: distance") :=
  ⟨((c3_missing_required_input [("distance", PyVal.float 1)]).1 rfl).1,
   ((c3_missing_required_input
      [("geometry", pointGeoJSON), ("distance", PyVal.none)]).2 rfl rfl).1⟩

/-- C1 (amended): provided the resolution value (16 by default when the key
is absent) is coercible by `int(...)`, execute either returns a pair whose
mimetype is application/json or fails with a ProcessorExecuteError, which
carries a message only.  The proviso is forced: `int(data.get('resolution',
16))` at line 111 sits outside every try/except, so its TypeError or
ValueError escapes uncaught (see the counterexample). -/
theorem c1_execute_error_contract (data : PyDict)
    (h : exceptIsOk (pyInt (dictGetD data "resolution" (PyVal.int 16))) = true) :
    (∃ r, execute data = Except.ok ("application/json", r)) ∨
    (∃ msg, execute data = Except.error (PyError.processorExecuteError msg)) := by
  cases hg : isNone (dictGet data "geometry") with
  | true =>
    right
    exact ⟨"Missing required input: geometry", by simp [execute, executeT, hg]⟩
  | false =>
    cases hd : isNone (dictGet data "distance") with
    | true =>
      right
      exact ⟨"Missing required input: distance", by simp [execute, executeT, hg, hd]⟩
    | false =>
      cases hf : pyFloat (dictGet data "distance") with
      | error e =>
        right
        exact ⟨"distance must be a number", by simp [execute, executeT, hg, hd, hf]⟩
      | ok q =>
        cases hi : pyInt (dictGetD data "resolution" (PyVal.int 16)) with
        | error e => rw [hi] at h; exact absurd h (by simp [exceptIsOk])
        | ok n =>
          cases hs : shapeParse (dictGet data "geometry") with
          | error err =>
            right
            exact ⟨"Invalid GeoJSON geometry: " ++ err,
                   by simp [execute, executeT, hg, hd, hf, hi, hs]⟩
          | ok geom =>
            left
            exact ⟨resultDict geom q n, by simp [execute, executeT, hg, hd, hf, hi, hs]⟩

/-- C1 witness: on the metadata example inputs the resolution is coercible
and execute returns the application/json pair. -/
theorem c1_execute_error_contract_witness :
    (∃ r, execute c2Input = Except.ok ("application/json", r)) ∨
    (∃ msg, execute c2Input = Except.error (PyError.processorExecuteError msg)) :=
  c1_execute_error_contract c2Input rfl

/-- C1 counterexample: with a valid geometry and distance but resolution
"abc", execute fails with an uncaught ValueError from `int(...)` — neither
a returned pair nor a ProcessorExecuteError — refuting the claim that it
never fails any other way. -/
theorem c1_counterexample :
    execute badResolutionInput =
      Except.error (PyError.valueError "invalid literal for int() with base 10: abc") ∧
    (¬ ∃ msg, execute badResolutionInput =
      Except.error (PyError.processorExecuteError msg)) ∧
    (¬ ∃ mr, execute badResolutionInput = Except.ok mr) := by
  refine ⟨rfl, ?_, ?_⟩
  · rintro ⟨msg, h⟩
    have h2 := (rfl :
      execute badResolutionInput =
        Except.error (PyError.valueError "invalid literal for int() with base 10: abc")
      ).symm.trans h
    exact PyError.noConfusion (Except.error.inj h2)
  · rintro ⟨mr, h⟩
    have h2 := (rfl :
      execute badResolutionInput =
        Except.error (PyError.valueError "invalid literal for int() with base 10: abc")
      ).symm.trans h
    exact Except.noConfusion h2

/-- Helper: a body that satisfies the terminal-status test of
poll_async_job carries a status string equal to "successful" or "failed". -/
lemma pollTerminal_spec (body : PyDict) (h : pollStatusIsTerminal body = true) :
    ∃ s, dictGetD body "status" (PyVal.str "") = PyVal.str s ∧
      (s = "successful" ∨ s = "failed") := by
  unfold pollStatusIsTerminal at h
  cases hst : dictGetD body "status" (PyVal.str "") <;> rw [hst] at h <;> simp at h
  case str s => exact ⟨s, rfl, h⟩

/-- C4 (amended): for every sequence of server responses whose 200
responses all carry bodies parsing to JSON objects, poll_async_job returns
without raising, with exactly three outcomes: the polled job document
whose status is "successful", the polled job document whose status is
"failed", or None when the response sequence is exhausted — the deadline
expiring — so a timeout (None) is distinct from a job failure (a returned
document).  The proviso is forced: only httpx.RequestError is caught, so a
200 response with an unparsable or non-object body raises uncaught (see
the counterexample). -/
theorem c4_poll_async_job_tristate (rs : List PollResp)
    (h : rs.all respBodyOk = true) :
    poll_async_job rs = Except.ok Option.none ∨
    ∃ body s, poll_async_job rs = Except.ok (Option.some body) ∧
      dictGetD body "status" (PyVal.str "") = PyVal.str s ∧
      (s = "successful" ∨ s = "failed") := by
  induction rs with
  | nil => left; rfl
  | cons r rest ih =>
    rw [List.all_cons, Bool.and_eq_true] at h
    obtain ⟨h1, h2⟩ := h
    cases r with
    | networkError => simpa [poll_async_job] using ih h2
    | http code body =>
      by_cases hc : code = 200
      · cases body with
        | invalidJson => simp [respBodyOk, hc] at h1
        | json v =>
          cases v <;> simp [respBodyOk, hc] at h1
          next entries =>
            cases ht : pollStatusIsTerminal entries with
            | false => simpa [poll_async_job, hc, ht] using ih h2
            | true =>
              right
              obtain ⟨s, hst, hs⟩ := pollTerminal_spec entries ht
              exact ⟨entries, s, by simp [poll_async_job, hc, ht], hst, hs⟩
      · simpa [poll_async_job, hc] using ih h2

/-- C4 witness: a run with a transport error, a non-200 response, a
running poll and then a successful poll satisfies the proviso and lands in
the tri-state outcome. -/
theorem c4_poll_async_job_tristate_witness :
    poll_async_job c4Responses = Except.ok Option.none ∨
    ∃ body s, poll_async_job c4Responses = Except.ok (Option.some body) ∧
      dictGetD body "status" (PyVal.str "") = PyVal.str s ∧
      (s = "successful" ∨ s = "failed") :=
  c4_poll_async_job_tristate c4Responses rfl

/-- C4 counterexample: a single 200 response whose body is not parseable
JSON makes poll_async_job raise json.JSONDecodeError, and one whose body
parses to a JSON array makes `data.get` raise AttributeError — neither a
job document nor a None timeout — refuting the claim that it returns
without raising for every response sequence. -/
theorem c4_counterexample :
    poll_async_job [PollResp.http 200 PollBody.invalidJson] =
      Except.error PollError.jsonDecodeError ∧
    poll_async_job [PollResp.http 200 (PollBody.json (PyVal.list []))] =
      Except.error PollError.attributeError ∧
    (¬ ∃ o, poll_async_job [PollResp.http 200 PollBody.invalidJson] = Except.ok o) := by
  refine ⟨rfl, rfl, ?_⟩
  rintro ⟨o, ho⟩
  have h2 := (rfl :
    poll_async_job [PollResp.http 200 PollBody.invalidJson] =
      Except.error PollError.jsonDecodeError).symm.trans ho
  exact Except.noConfusion h2

/-- C5 (amended): for every input mapping whose geometry is present and
non-null and whose distance is present and non-null but not coercible by
`float(...)`, execute fails with a ProcessorExecuteError naming the field
and expected type, and no buffer is computed (the pre-buffer log line is
never emitted).  The geometry proviso is forced: the geometry presence
check at lines 98-100 runs first, so a mapping that also lacks geometry
fails with the geometry message instead (see the counterexample). -/
theorem c5_uncoercible_distance (data : PyDict)
    (hg : isNone (dictGet data "geometry") = false)
    (hd : isNone (dictGet data "distance") = false)
    (hf : exceptIsOk (pyFloat (dictGet data "distance")) = false) :
    execute data = Except.error (PyError.processorExecuteError "distance must be a number") ∧
    (executeT data PyVal.none).1.logMsgs = [] := by
  cases hpf : pyFloat (dictGet data "distance") with
  | ok q => rw [hpf] at hf; exact absurd hf (by simp [exceptIsOk])
  | error e =>
    exact ⟨by simp [execute, executeT, hg, hd, hpf],
           by simp [executeT, hg, hd, hpf]⟩

/-- C5 witness: a valid geometry with the unparsable distance "abc" yields
the distance coercion error. -/
theorem c5_uncoercible_distance_witness :
    execute [("geometry", pointGeoJSON), ("distance", PyVal.str "abc")] =
      Except.error (PyError.processorExecuteError "distance must be a number") ∧
    (executeT [("geometry", pointGeoJSON), ("distance", PyVal.str "abc")]
      PyVal.none).1.logMsgs = [] :=
  c5_uncoercible_distance
    [("geometry", pointGeoJSON), ("distance", PyVal.str "abc")] rfl rfl rfl

/-- C5 counterexample: the mapping binding only distance to "abc" has a
present but uncoercible distance, yet execute reports the missing geometry
instead of naming distance — refuting the claim for arbitrary input
mappings. -/
theorem c5_counterexample :
    execute [("distance", PyVal.str "abc")] =
      Except.error (PyError.processorExecuteError "Missing required input: geometry") ∧
    exceptIsOk (pyFloat (dictGet [("distance", PyVal.str "abc")] "distance")) = false ∧
    ("Missing required input: geometry" ≠ "distance must be a number") :=
  ⟨rfl, rfl, by decide⟩

/-- C6: when the resolution key is absent (and geometry and distance are
valid), execute applies the declared default 16: the result equals the
Feature built from the buffer computed with resolution 16, whose
properties report buffer_resolution = 16 and whose geometry is the mapping
of the buffer taken at resolution 16. -/
theorem c6_default_resolution (data : PyDict) (g : Geom) (d : ℚ)
    (hres : dictLookup data "resolution" = Option.none)
    (hg : isNone (dictGet data "geometry") = false)
    (hd : isNone (dictGet data "distance") = false)
    (hf : pyFloat (dictGet data "distance") = Except.ok d)
    (hs : shapeParse (dictGet data "geometry") = Except.ok g) :
    execute data = Except.ok ("application/json", resultDict g d 16) ∧
    pvGet (pvGet (resultDict g d 16) "properties") "buffer_resolution" = PyVal.int 16 ∧
    pvGet (resultDict g d 16) "geometry" = shapelyMapping (bufferGeom g d 16) := by
  have h16 : pyInt (dictGetD data "resolution" (PyVal.int 16)) = Except.ok 16 := by
    simp [dictGetD, hres, pyInt]
  exact ⟨by simp [execute, executeT, hg, hd, hf, h16, hs], rfl, rfl⟩

/-- C6 witness: the origin Point with distance 1.0 and no resolution key
produces the default-resolution Feature. -/
theorem c6_default_resolution_witness :
    execute noResolutionInput =
      Except.ok ("application/json", resultDict (Geom.point 0 0) 1 16) ∧
    pvGet (pvGet (resultDict (Geom.point 0 0) 1 16) "properties") "buffer_resolution" =
      PyVal.int 16 ∧
    pvGet (resultDict (Geom.point 0 0) 1 16) "geometry" =
      shapelyMapping (bufferGeom (Geom.point 0 0) 1 16) :=
  c6_default_resolution noResolutionInput (Geom.point 0 0) 1 rfl rfl rfl rfl rfl

/-- C7: whenever the geometry parser rejects the geometry value (and the
other inputs allow control to reach the parser: distance present and
coercible, resolution coercible), execute fails with a
ProcessorExecuteError whose message is the parser error verbatim, prefixed
by the fixed wrapper text of lines 120-124. -/
theorem c7_invalid_geometry_verbatim (data : PyDict) (e : String)
    (hg : isNone (dictGet data "geometry") = false)
    (hd : isNone (dictGet data "distance") = false)
    (hf : exceptIsOk (pyFloat (dictGet data "distance")) = true)
    (hi : exceptIsOk (pyInt (dictGetD data "resolution" (PyVal.int 16))) = true)
    (hs : shapeParse (dictGet data "geometry") = Except.error e) :
    execute data =
      Except.error (PyError.processorExecuteError ("Invalid GeoJSON geometry: " ++ e)) := by
  cases hpf : pyFloat (dictGet data "distance") with
  | error e2 => rw [hpf] at hf; exact absurd hf (by simp [exceptIsOk])
  | ok q =>
    cases hpi : pyInt (dictGetD data "resolution" (PyVal.int 16)) with
    | error e3 => rw [hpi] at hi; exact absurd hi (by simp [exceptIsOk])
    | ok n => simp [execute, executeT, hg, hd, hpf, hpi, hs]

/-- C7 witness: a geometry value that is not even a JSON object is rejected
by the parser and its message is surfaced with the wrapper text. -/
theorem c7_invalid_geometry_verbatim_witness :
    execute [("geometry", PyVal.str "oops"), ("distance", PyVal.float 1)] =
      Except.error (PyError.processorExecuteError
        ("Invalid GeoJSON geometry: " ++ "Object is not a geometry")) :=
  c7_invalid_geometry_verbatim
    [("geometry", PyVal.str "oops"), ("distance", PyVal.float 1)]
    "Object is not a geometry" rfl rfl rfl rfl rfl

/-- C8: execute is deterministic and pure.  Its entire invocation context
beyond the validated inputs is the unused `outputs` parameter — the method
receives no job state and no indication of sync versus async invocation —
so two calls on equal input mappings, under any two invocation contexts,
return equal (mimetype, result) outcomes. -/
theorem c8_deterministic_pure (data1 data2 : PyDict) (outputs1 outputs2 : PyVal)
    (h : data1 = data2) :
    (executeT data1 outputs1).2 = (executeT data2 outputs2).2 := by
  subst h; rfl

/-- C8 witness: the example inputs give the same outcome whether the
manager passes outputs = None or any other outputs selection. -/
theorem c8_deterministic_pure_witness :
    (executeT c2Input PyVal.none).2 =
    (executeT c2Input (PyVal.dict [("buffered_geometry", PyVal.dict [])])).2 :=
  c8_deterministic_pure c2Input c2Input PyVal.none
    (PyVal.dict [("buffered_geometry", PyVal.dict [])]) rfl

/-- C9: execute never mutates its input mapping: on every path — result or
failure — the operations it performs on the caller mapping are all reads,
and replaying the operation trace leaves the mapping unchanged. -/
theorem c9_no_input_mutation (data : PyDict) (outputs : PyVal) :
    ((executeT data outputs).1.dictOps.all DictOp.isRead) = true ∧
    applyDictOps (executeT data outputs).1.dictOps data = data := by
  cases hg : isNone (dictGet data "geometry") with
  | true => exact ⟨by simp [executeT, hg, DictOp.isRead],
                   by simp [executeT, hg, applyDictOps]⟩
  | false =>
    cases hd : isNone (dictGet data "distance") with
    | true => exact ⟨by simp [executeT, hg, hd, DictOp.isRead],
                     by simp [executeT, hg, hd, applyDictOps]⟩
    | false =>
      cases hf : pyFloat (dictGet data "distance") with
      | error e => exact ⟨by simp [executeT, hg, hd, hf, DictOp.isRead],
                          by simp [executeT, hg, hd, hf, applyDictOps]⟩
      | ok q =>
        cases hi : pyInt (dictGetD data "resolution" (PyVal.int 16)) with
        | error e2 => exact ⟨by simp [executeT, hg, hd, hf, hi, DictOp.isRead],
                             by simp [executeT, hg, hd, hf, hi, applyDictOps]⟩
        | ok n =>
          cases hs : shapeParse (dictGet data "geometry") with
          | error e3 => exact ⟨by simp [executeT, hg, hd, hf, hi, hs, DictOp.isRead],
                               by simp [executeT, hg, hd, hf, hi, hs, applyDictOps]⟩
          | ok g => exact ⟨by simp [executeT, hg, hd, hf, hi, hs, DictOp.isRead],
                           by simp [executeT, hg, hd, hf, hi, hs, applyDictOps]⟩

/-- C10: the demo client polling loop has no deadline.  Over the stream of
statuses the successive polls observe, and for any amount of fuel: a
returned value is possible only for a terminal status ("successful",
"failed" or "dismissed"), and when the job stays "accepted" or "running"
forever the loop returns nothing no matter how much fuel it is given —
it polls forever. -/
theorem c10_demo_loop_no_deadline (fuel : Nat) (statuses : Nat → String) :
    (∀ s, demoPoll fuel statuses = Option.some s → demoTerminal s = true) ∧
    ((∀ i, statuses i = "accepted" ∨ statuses i = "running") →
      demoPoll fuel statuses = Option.none) := by
  induction fuel generalizing statuses with
  | zero => exact ⟨(fun s h => nomatch h), (fun _ => rfl)⟩
  | succ n ih =>
    constructor
    · intro s h
      unfold demoPoll at h
      cases ht : demoTerminal (statuses 0) with
      | true =>
        rw [ht] at h
        simp at h
        rw [← h]
        exact ht
      | false =>
        rw [ht] at h
        simp at h
        exact (ih _).1 s h
    · intro hall
      unfold demoPoll
      have h0 : demoTerminal (statuses 0) = false := by
        rcases hall 0 with h | h <;> rw [h] <;> rfl
      rw [h0]
      simp
      exact (ih _).2 (fun i => hall (i + 1))

/-- C10 witness: with every poll observing "running" the loop is still
going after five iterations, while a first poll observing "successful"
terminates on a terminal status. -/
theorem c10_demo_loop_no_deadline_witness :
    demoPoll 5 (fun _ => "running") = Option.none ∧
    demoTerminal "successful" = true :=
  ⟨(c10_demo_loop_no_deadline 5 (fun _ => "running")).2 (fun _ => Or.inr rfl),
   (c10_demo_loop_no_deadline 1 (fun _ => "successful")).1 "successful" rfl⟩
